import Mathlib

/-!
Shallow embedding of the image-generation relay service (Go, two observed
variants of the same program):

* `GoMain` embeds `src/main.go`: errors are written by `writeError` as a JSON
  body of the shape with key "error" and Content-Type `application/json`;
  the upstream call is `GenerateContentStream`, a stream of results scanned
  for the first inline image payload, whose declared MIME type (default
  `image/png` when empty) becomes the response Content-Type.

* `GoV0` embeds `src/unnamed/part_000`: errors are written by Go's
  `http.Error`, a plain-text body with Content-Type
  `text/plain; charset=utf-8`; the upstream call is `GenerateImages` and the
  response Content-Type is always `image/png` (`writeImagePNG`).

Handlers are modelled as pure functions from an upstream oracle and an HTTP
request to a `HandlerOutcome`: the HTTP response, the list of prompts sent
upstream (each upstream call carries exactly a prompt string and nothing
else, mirroring the Go call `generateSingleImage(ctx, prompt)`), and the
list of server-side log lines. JSON decoding of the request body is
modelled by an `Option` of the decoded struct (Go's `json.Decode` error is
`none`); base64 validation embeds Go's `base64.StdEncoding.DecodeString`
success condition.
-/

/-- Request body of POST /text-to-image (`TextToImageRequest` in both variants). -/
structure TextToImageRequest where
  prompt : String
deriving DecidableEq, Repr

/-- Request body of POST /resize (`ResizeRequest` in both variants); `scale` is a Go `int`. -/
structure ResizeRequest where
  imageBase64 : String
  scale : Int
deriving DecidableEq, Repr

/-- Request body of POST /sketch-to-image (`SketchToImageRequest` in both variants). -/
structure SketchToImageRequest where
  imageBase64 : String
  description : String
deriving DecidableEq, Repr

/-- Request body of POST /magic-eraser (`MagicEraserRequest` in both variants). -/
structure MagicEraserRequest where
  imageBase64 : String
deriving DecidableEq, Repr

/-- An inbound HTTP request as the handlers observe it: the method string and
the outcome of JSON-decoding the body into the endpoint's request struct
(`none` when `json.NewDecoder(r.Body).Decode(&req)` returns an error). -/
structure HttpRequest (α : Type) where
  method : String
  body : Option α
deriving DecidableEq, Repr

/-- The body of an HTTP response: an image byte stream (`w.Write(img)` after a
200), the JSON object with key "error" written by `writeError` in main.go, or
the plain-text message (message and a trailing newline) written by Go's
`http.Error` in the part_000 variant. -/
inductive RespBody where
  | image (data : List Nat)
  | jsonError (msg : String)
  | textError (msg : String)
deriving DecidableEq, Repr

/-- An HTTP response: status code, Content-Type header, body. -/
structure HttpResponse where
  status : Nat
  contentType : String
  body : RespBody
deriving DecidableEq, Repr

/-- What one handler invocation produces: the response, the prompts passed to
the upstream generation call (in order), and the server-side log lines. -/
structure HandlerOutcome where
  response : HttpResponse
  upstreamCalls : List String
  logs : List String
deriving DecidableEq, Repr

/-- Membership in Go's `base64.StdEncoding` alphabet (A-Z, a-z, 0-9, +, /). -/
def isB64Std (c : Char) : Bool :=
  ('A' ≤ c && c ≤ 'Z') || ('a' ≤ c && c ≤ 'z') || ('0' ≤ c && c ≤ '9') ||
    c == '+' || c == '/'

/-- Membership in the base64url alphabet of RFC 4648 section 5
(A-Z, a-z, 0-9, -, _), used only to state the scope of claim C10. -/
def isB64Url (c : Char) : Bool :=
  ('A' ≤ c && c ≤ 'Z') || ('a' ≤ c && c ≤ 'z') || ('0' ≤ c && c ≤ '9') ||
    c == '-' || c == '_'

/-- Go's standard-encoding quantum check: groups of four characters from the
standard alphabet; only the final group may end in padding, as three data
characters and one '=', or two data characters and two '='. -/
def validStdGroups : List Char → Bool
  | [] => true
  | a :: b :: c :: d :: rest =>
      if rest.isEmpty then
        isB64Std a && isB64Std b &&
          ((isB64Std c && (isB64Std d || d == '=')) || (c == '=' && d == '='))
      else
        isB64Std a && isB64Std b && isB64Std c && isB64Std d &&
          validStdGroups rest
  | _ => false

/-- Success condition of `base64.StdEncoding.DecodeString` in Go: carriage
returns and newlines are ignored, the remaining length must be a multiple of
four, and every quantum must be well formed (`validStdGroups`). The handlers
discard the decoded bytes (`_, err := ...DecodeString(...)`), so only this
boolean enters the embedding. -/
def base64StdDecodeOk (s : String) : Bool :=
  let t := s.data.filter (fun c => !(c == '\x0d' || c == '\x0a'))
  (t.length % 4 == 0) && validStdGroups t

/-- Validity under RFC 4648 base64url without padding (Go's
`RawURLEncoding`): every character from the url-safe alphabet and a length
that is not 1 mod 4. Used only to state the scope of claim C10. -/
def rawUrlB64Ok (s : String) : Bool :=
  s.data.all isB64Url && (s.data.length % 4 != 1)

/-- The prompt synthesized by both variants' /resize handlers:
`fmt.Sprintf("Resize this image by x%d preserving details.", req.Scale)`. -/
def resizePrompt (scale : Int) : String :=
  "Resize this image by x" ++ toString scale ++ " preserving details."

namespace GoMain

/-- `genai.Part.InlineData` as `generateSingleImage` reads it: a declared
MIME type and the image bytes. -/
structure InlineData where
  mimeType : String
  data : List Nat
deriving DecidableEq, Repr

/-- A `genai.Part`: the handler only looks at its `InlineData` field. -/
structure Part where
  inlineData : Option InlineData
deriving DecidableEq, Repr

/-- A candidate's `Content`: its list of parts. -/
structure Content where
  parts : List Part
deriving DecidableEq, Repr

/-- A `genai.Candidate`: its content, possibly nil. -/
structure Candidate where
  content : Option Content
deriving DecidableEq, Repr

/-- One streamed `GenerateContentResponse`: its candidates. -/
structure GenResult where
  candidates : List Candidate
deriving DecidableEq, Repr

/-- One item yielded by the `GenerateContentStream` iterator: a (result, err)
pair where exactly one side is set. -/
inductive StreamItem where
  | err (e : String)
  | ok (r : GenResult)
deriving DecidableEq, Repr

/-- The inner loop of `generateSingleImage`: the first part of the list whose
`InlineData` is non-nil. -/
def findInline : List Part → Option InlineData
  | [] => none
  | p :: rest =>
    match p.inlineData with
    | some d => some d
    | none => findInline rest

/-- `generateSingleImage` of main.go over the stream yielded by the upstream
call: a yielded error is returned as is; a result with no candidates, nil
content or no parts is skipped; otherwise the first inline payload of
candidate 0's parts is returned with its MIME type, defaulting to
`image/png` when empty; an exhausted stream yields the error
`no image returned`. -/
def generateSingleImage : List StreamItem → Except String (List Nat × String)
  | [] => Except.error "no image returned"
  | StreamItem.err e :: _ => Except.error e
  | StreamItem.ok r :: rest =>
    match r.candidates.head? with
    | none => generateSingleImage rest
    | some c0 =>
      match c0.content with
      | none => generateSingleImage rest
      | some ct =>
        if ct.parts.isEmpty then generateSingleImage rest
        else
          match findInline ct.parts with
          | some d =>
              Except.ok (d.data, if d.mimeType = "" then "image/png" else d.mimeType)
          | none => generateSingleImage rest

/-- `writeImage` of main.go: 200, Content-Type the given MIME type or
`image/png` when empty, body the image bytes. -/
def writeImage (img : List Nat) (mimeType : String) : HttpResponse :=
  { status := 200
    contentType := if mimeType = "" then "image/png" else mimeType
    body := RespBody.image img }

/-- `writeError` of main.go: the given status, Content-Type
`application/json`, body the JSON object with key "error" and the message. -/
def writeError (message : String) (statusCode : Nat) : HttpResponse :=
  { status := statusCode
    contentType := "application/json"
    body := RespBody.jsonError message }

/-- `handleTextToImage` of main.go. The upstream oracle `up` maps the prompt
passed to `GenerateContentStream` to the stream it yields. -/
def handleTextToImage (up : String → List StreamItem)
    (r : HttpRequest TextToImageRequest) : HandlerOutcome :=
  if r.method ≠ "POST" then
    ⟨writeError "POST only" 405, [], []⟩
  else
    match r.body with
    | none => ⟨writeError "invalid body" 400, [], []⟩
    | some req =>
      if req.prompt = "" then
        ⟨writeError "missing prompt" 400, [], []⟩
      else
        match GoMain.generateSingleImage (up req.prompt) with
        | Except.error e =>
            ⟨writeError ("generation error: " ++ e) 500, [req.prompt],
              ["Error generating image: " ++ e]⟩
        | Except.ok (img, mime) => ⟨writeImage img mime, [req.prompt], []⟩

/-- `handleResize` of main.go. -/
def handleResize (up : String → List StreamItem)
    (r : HttpRequest ResizeRequest) : HandlerOutcome :=
  if r.method ≠ "POST" then
    ⟨writeError "POST only" 405, [], []⟩
  else
    match r.body with
    | none => ⟨writeError "invalid body" 400, [], []⟩
    | some req =>
      if req.imageBase64 = "" then
        ⟨writeError "missing image" 400, [], []⟩
      else if req.scale ≠ 2 ∧ req.scale ≠ 4 then
        ⟨writeError "scale must be 2 or 4" 400, [], []⟩
      else if base64StdDecodeOk req.imageBase64 = false then
        ⟨writeError "invalid base64" 400, [], []⟩
      else
        match GoMain.generateSingleImage (up (resizePrompt req.scale)) with
        | Except.error e =>
            ⟨writeError ("resize error: " ++ e) 500, [resizePrompt req.scale],
              ["Error resizing image: " ++ e]⟩
        | Except.ok (img, mime) =>
            ⟨writeImage img mime, [resizePrompt req.scale], []⟩

/-- The prompt synthesized by main.go's /sketch-to-image handler:
`fmt.Sprintf("Interpret this sketch as '%s'.", req.Description)`. -/
def sketchPrompt (description : String) : String :=
  "Interpret this sketch as '" ++ description ++ "'."

/-- `handleSketchToImage` of main.go. -/
def handleSketchToImage (up : String → List StreamItem)
    (r : HttpRequest SketchToImageRequest) : HandlerOutcome :=
  if r.method ≠ "POST" then
    ⟨writeError "POST only" 405, [], []⟩
  else
    match r.body with
    | none => ⟨writeError "invalid body" 400, [], []⟩
    | some req =>
      if req.imageBase64 = "" ∨ req.description = "" then
        ⟨writeError "missing fields" 400, [], []⟩
      else if base64StdDecodeOk req.imageBase64 = false then
        ⟨writeError "invalid base64" 400, [], []⟩
      else
        match GoMain.generateSingleImage (up (sketchPrompt req.description)) with
        | Except.error e =>
            ⟨writeError ("sketch error: " ++ e) 500, [sketchPrompt req.description],
              ["Error converting sketch to image: " ++ e]⟩
        | Except.ok (img, mime) =>
            ⟨writeImage img mime, [sketchPrompt req.description], []⟩

/-- The fixed prompt of main.go's /magic-eraser handler. -/
def eraserPrompt : String :=
  "Remove the pink masked area and reconstruct the background."

/-- `handleMagicEraser` of main.go. -/
def handleMagicEraser (up : String → List StreamItem)
    (r : HttpRequest MagicEraserRequest) : HandlerOutcome :=
  if r.method ≠ "POST" then
    ⟨writeError "POST only" 405, [], []⟩
  else
    match r.body with
    | none => ⟨writeError "invalid body" 400, [], []⟩
    | some req =>
      if req.imageBase64 = "" then
        ⟨writeError "missing image" 400, [], []⟩
      else if base64StdDecodeOk req.imageBase64 = false then
        ⟨writeError "invalid base64" 400, [], []⟩
      else
        match GoMain.generateSingleImage (up eraserPrompt) with
        | Except.error e =>
            ⟨writeError ("eraser error: " ++ e) 500, [eraserPrompt],
              ["Error with magic eraser: " ++ e]⟩
        | Except.ok (img, mime) => ⟨writeImage img mime, [eraserPrompt], []⟩

end GoMain

namespace GoV0

/-- `genai.Image` as the part_000 variant receives it from `GenerateImages`:
the image bytes and the declared MIME type (the code reads only the bytes). -/
structure Image where
  imageBytes : List Nat
  mimeType : String
deriving DecidableEq, Repr

/-- One `genai.GeneratedImage`: its image, possibly nil. -/
structure GeneratedImage where
  image : Option Image
deriving DecidableEq, Repr

/-- The `GenerateImagesResponse` of the part_000 variant's upstream call. -/
structure GenerateImagesResponse where
  generatedImages : List GeneratedImage
deriving DecidableEq, Repr

/-- `generateSingleImage` of part_000: a transport error is returned as is;
an empty image list or a nil first image yields the error
`no image returned`; otherwise the first generated image's bytes. -/
def generateSingleImage (res : Except String GenerateImagesResponse) :
    Except String (List Nat) :=
  match res with
  | Except.error e => Except.error e
  | Except.ok resp =>
    match resp.generatedImages.head? with
    | none => Except.error "no image returned"
    | some g =>
      match g.image with
      | none => Except.error "no image returned"
      | some img => Except.ok img.imageBytes

/-- `writeImagePNG` of part_000: 200, Content-Type always `image/png`,
body the image bytes. -/
def writeImagePNG (img : List Nat) : HttpResponse :=
  { status := 200, contentType := "image/png", body := RespBody.image img }

/-- Go's `http.Error`, as part_000 uses it for every error path: the given
status, Content-Type `text/plain; charset=utf-8`, and the plain-text message
(followed by a newline on the wire). -/
def httpError (message : String) (code : Nat) : HttpResponse :=
  { status := code
    contentType := "text/plain; charset=utf-8"
    body := RespBody.textError message }

/-- `handleTextToImage` of part_000. The upstream oracle `up` maps the
prompt passed to `GenerateImages` to its result. No error path logs. -/
def handleTextToImage (up : String → Except String GenerateImagesResponse)
    (r : HttpRequest TextToImageRequest) : HandlerOutcome :=
  if r.method ≠ "POST" then
    ⟨httpError "POST only" 405, [], []⟩
  else
    match r.body with
    | none => ⟨httpError "invalid body" 400, [], []⟩
    | some req =>
      if req.prompt = "" then
        ⟨httpError "missing prompt" 400, [], []⟩
      else
        match GoV0.generateSingleImage (up req.prompt) with
        | Except.error _ => ⟨httpError "generation error" 500, [req.prompt], []⟩
        | Except.ok img => ⟨writeImagePNG img, [req.prompt], []⟩

/-- `handleResize` of part_000. -/
def handleResize (up : String → Except String GenerateImagesResponse)
    (r : HttpRequest ResizeRequest) : HandlerOutcome :=
  if r.method ≠ "POST" then
    ⟨httpError "POST only" 405, [], []⟩
  else
    match r.body with
    | none => ⟨httpError "invalid body" 400, [], []⟩
    | some req =>
      if req.imageBase64 = "" then
        ⟨httpError "missing image" 400, [], []⟩
      else if req.scale ≠ 2 ∧ req.scale ≠ 4 then
        ⟨httpError "scale must be 2 or 4" 400, [], []⟩
      else if base64StdDecodeOk req.imageBase64 = false then
        ⟨httpError "invalid base64" 400, [], []⟩
      else
        match GoV0.generateSingleImage (up (resizePrompt req.scale)) with
        | Except.error _ =>
            ⟨httpError "resize error" 500, [resizePrompt req.scale], []⟩
        | Except.ok img =>
            ⟨writeImagePNG img, [resizePrompt req.scale], []⟩

/-- The prompt synthesized by part_000's /sketch-to-image handler:
`fmt.Sprintf("Sketch to Image: interpret this sketch as '%s'.", req.Description)`. -/
def sketchPrompt (description : String) : String :=
  "Sketch to Image: interpret this sketch as '" ++ description ++ "'."

/-- `handleSketchToImage` of part_000. -/
def handleSketchToImage (up : String → Except String GenerateImagesResponse)
    (r : HttpRequest SketchToImageRequest) : HandlerOutcome :=
  if r.method ≠ "POST" then
    ⟨httpError "POST only" 405, [], []⟩
  else
    match r.body with
    | none => ⟨httpError "invalid body" 400, [], []⟩
    | some req =>
      if req.imageBase64 = "" ∨ req.description = "" then
        ⟨httpError "missing fields" 400, [], []⟩
      else if base64StdDecodeOk req.imageBase64 = false then
        ⟨httpError "invalid base64" 400, [], []⟩
      else
        match GoV0.generateSingleImage (up (GoV0.sketchPrompt req.description)) with
        | Except.error _ =>
            ⟨httpError "sketch error" 500, [GoV0.sketchPrompt req.description], []⟩
        | Except.ok img =>
            ⟨writeImagePNG img, [GoV0.sketchPrompt req.description], []⟩

/-- The fixed prompt of part_000's /magic-eraser handler. -/
def eraserPrompt : String :=
  "Magic eraser: remove the pink masked area and reconstruct background."

/-- `handleMagicEraser` of part_000. -/
def handleMagicEraser (up : String → Except String GenerateImagesResponse)
    (r : HttpRequest MagicEraserRequest) : HandlerOutcome :=
  if r.method ≠ "POST" then
    ⟨httpError "POST only" 405, [], []⟩
  else
    match r.body with
    | none => ⟨httpError "invalid body" 400, [], []⟩
    | some req =>
      if req.imageBase64 = "" then
        ⟨httpError "missing image" 400, [], []⟩
      else if base64StdDecodeOk req.imageBase64 = false then
        ⟨httpError "invalid base64" 400, [], []⟩
      else
        match GoV0.generateSingleImage (up GoV0.eraserPrompt) with
        | Except.error _ =>
            ⟨httpError "eraser error" 500, [GoV0.eraserPrompt], []⟩
        | Except.ok img => ⟨writeImagePNG img, [GoV0.eraserPrompt], []⟩

end GoV0

/-! Helper definitions and lemmas shared by the claim theorems. -/

/-- The response shape main.go can produce: a 200 image response with a
non-empty Content-Type, or a JSON error object with status 400, 405 or 500. -/
def mainRespShape (resp : HttpResponse) : Prop :=
  (resp.status = 200 ∧ resp.contentType ≠ "" ∧ ∃ d, resp.body = RespBody.image d) ∨
  ((resp.status = 400 ∨ resp.status = 405 ∨ resp.status = 500) ∧
    resp.contentType = "application/json" ∧ ∃ m, resp.body = RespBody.jsonError m)

/-- The response shape part_000 can produce: a 200 image/png response, or a
plain-text error with status 400, 405 or 500. -/
def v0RespShape (resp : HttpResponse) : Prop :=
  (resp.status = 200 ∧ resp.contentType = "image/png" ∧
    ∃ d, resp.body = RespBody.image d) ∨
  ((resp.status = 400 ∨ resp.status = 405 ∨ resp.status = 500) ∧
    resp.contentType = "text/plain; charset=utf-8" ∧
    ∃ m, resp.body = RespBody.textError m)

theorem mainShape_writeError (m : String) (code : Nat)
    (h : code = 400 ∨ code = 405 ∨ code = 500) :
    mainRespShape (GoMain.writeError m code) :=
  Or.inr ⟨h, rfl, m, rfl⟩

theorem mainShape_writeImage (img : List Nat) (mime : String) :
    mainRespShape (GoMain.writeImage img mime) := by
  left
  refine ⟨rfl, ?_, img, rfl⟩
  by_cases h : mime = "" <;> simp [GoMain.writeImage, h]

theorem v0Shape_httpError (m : String) (code : Nat)
    (h : code = 400 ∨ code = 405 ∨ code = 500) :
    v0RespShape (GoV0.httpError m code) :=
  Or.inr ⟨h, rfl, m, rfl⟩

theorem v0Shape_writeImagePNG (img : List Nat) :
    v0RespShape (GoV0.writeImagePNG img) :=
  Or.inl ⟨rfl, rfl, img, rfl⟩

theorem mainShape_handleTextToImage (up : String → List GoMain.StreamItem)
    (r : HttpRequest TextToImageRequest) :
    mainRespShape (GoMain.handleTextToImage up r).response := by
  unfold GoMain.handleTextToImage
  repeat' split
  all_goals
    first
      | exact mainShape_writeError _ _ (by simp)
      | exact mainShape_writeImage _ _

theorem mainShape_handleResize (up : String → List GoMain.StreamItem)
    (r : HttpRequest ResizeRequest) :
    mainRespShape (GoMain.handleResize up r).response := by
  unfold GoMain.handleResize
  repeat' split
  all_goals
    first
      | exact mainShape_writeError _ _ (by simp)
      | exact mainShape_writeImage _ _

theorem mainShape_handleSketchToImage (up : String → List GoMain.StreamItem)
    (r : HttpRequest SketchToImageRequest) :
    mainRespShape (GoMain.handleSketchToImage up r).response := by
  unfold GoMain.handleSketchToImage
  repeat' split
  all_goals
    first
      | exact mainShape_writeError _ _ (by simp)
      | exact mainShape_writeImage _ _

theorem mainShape_handleMagicEraser (up : String → List GoMain.StreamItem)
    (r : HttpRequest MagicEraserRequest) :
    mainRespShape (GoMain.handleMagicEraser up r).response := by
  unfold GoMain.handleMagicEraser
  repeat' split
  all_goals
    first
      | exact mainShape_writeError _ _ (by simp)
      | exact mainShape_writeImage _ _

theorem v0Shape_handleTextToImage
    (up : String → Except String GoV0.GenerateImagesResponse)
    (r : HttpRequest TextToImageRequest) :
    v0RespShape (GoV0.handleTextToImage up r).response := by
  unfold GoV0.handleTextToImage
  repeat' split
  all_goals
    first
      | exact v0Shape_httpError _ _ (by simp)
      | exact v0Shape_writeImagePNG _

theorem v0Shape_handleResize
    (up : String → Except String GoV0.GenerateImagesResponse)
    (r : HttpRequest ResizeRequest) :
    v0RespShape (GoV0.handleResize up r).response := by
  unfold GoV0.handleResize
  repeat' split
  all_goals
    first
      | exact v0Shape_httpError _ _ (by simp)
      | exact v0Shape_writeImagePNG _

theorem v0Shape_handleSketchToImage
    (up : String → Except String GoV0.GenerateImagesResponse)
    (r : HttpRequest SketchToImageRequest) :
    v0RespShape (GoV0.handleSketchToImage up r).response := by
  unfold GoV0.handleSketchToImage
  repeat' split
  all_goals
    first
      | exact v0Shape_httpError _ _ (by simp)
      | exact v0Shape_writeImagePNG _

theorem v0Shape_handleMagicEraser
    (up : String → Except String GoV0.GenerateImagesResponse)
    (r : HttpRequest MagicEraserRequest) :
    v0RespShape (GoV0.handleMagicEraser up r).response := by
  unfold GoV0.handleMagicEraser
  repeat' split
  all_goals
    first
      | exact v0Shape_httpError _ _ (by simp)
      | exact v0Shape_writeImagePNG _

theorem validStdGroups_eq_false_of_bad (t : List Char) (x : Char)
    (hmem : x ∈ t) (hbad : isB64Std x = false) (hne : x ≠ '=') :
    validStdGroups t = false := by
  induction t using validStdGroups.induct with
  | case1 => simp at hmem
  | case2 a b c d rest hrest =>
      simp only [List.mem_cons] at hmem
      rw [validStdGroups, if_pos hrest]
      rcases hmem with h | h | h | h | h
      · subst h; simp [hbad]
      · subst h; simp [hbad]
      · subst h; simp [hbad, hne]
      · subst h; simp [hbad, hne]
      · rw [List.isEmpty_iff] at hrest; subst hrest; simp at h
  | case3 a b c d rest hrest ih =>
      simp only [List.mem_cons] at hmem
      rw [validStdGroups, if_neg hrest]
      rcases hmem with h | h | h | h | h
      · subst h; simp [hbad]
      · subst h; simp [hbad]
      · subst h; simp [hbad]
      · subst h; simp [hbad]
      · simp [ih h]
  | case4 t h1 h2 =>
      cases t with
      | nil => simp at hmem
      | cons a t' =>
        cases t' with
        | nil => rfl
        | cons b t'' =>
          cases t'' with
          | nil => rfl
          | cons c t''' =>
            cases t''' with
            | nil => rfl
            | cons d r => exact absurd rfl (h2 a b c d r)

theorem urlChar_kept (c : Char) (h : isB64Url c = true) :
    (!(c == '\x0d' || c == '\x0a')) = true := by
  simp only [Bool.not_eq_eq_eq_not, Bool.not_true, Bool.or_eq_false_iff,
    beq_eq_false_iff_ne, ne_eq]
  constructor
  · intro hc; subst hc; exact absurd h (by decide)
  · intro hc; subst hc; exact absurd h (by decide)

theorem base64Std_fails_on_url (s : String) (hurl : rawUrlB64Ok s = true)
    (hbad : ('-' ∈ s.data) ∨ ('_' ∈ s.data) ∨ s.data.length % 4 ≠ 0) :
    base64StdDecodeOk s = false := by
  have hall : ∀ c ∈ s.data, isB64Url c = true := by
    have := (Bool.and_eq_true _ _).mp hurl
    exact fun c hc => List.all_eq_true.mp this.1 c hc
  have hfilter :
      s.data.filter (fun c => !(c == '\x0d' || c == '\x0a')) = s.data :=
    List.filter_eq_self.mpr (fun c hc => urlChar_kept c (hall c hc))
  simp only [base64StdDecodeOk, hfilter]
  rcases hbad with h | h | h
  · by_cases hlen : s.data.length % 4 = 0
    · have : validStdGroups s.data = false :=
        validStdGroups_eq_false_of_bad s.data '-' h (by decide) (by decide)
      simp [this]
    · simp only [Bool.and_eq_false_imp, beq_iff_eq]
      intro hcon; exact absurd hcon hlen
  · by_cases hlen : s.data.length % 4 = 0
    · have : validStdGroups s.data = false :=
        validStdGroups_eq_false_of_bad s.data '_' h (by decide) (by decide)
      simp [this]
    · simp only [Bool.and_eq_false_imp, beq_iff_eq]
      intro hcon; exact absurd hcon hlen
  · simp only [Bool.and_eq_false_imp, beq_iff_eq]
    intro hcon; exact absurd hcon h

theorem string_ne_empty_of_mem (s : String) (c : Char) (h : c ∈ s.data) :
    s ≠ "" := by
  intro hs; subst hs; simp at h

theorem string_ne_empty_of_len (s : String) (h : s.data.length % 4 ≠ 0) :
    s ≠ "" := by
  intro hs; subst hs; simp at h

/-- The stream yielded by the upstream call holds no transport error. -/
def streamErrFree (s : List GoMain.StreamItem) : Bool :=
  s.all fun it =>
    match it with
    | GoMain.StreamItem.ok _ => true
    | GoMain.StreamItem.err _ => false

/-- The inline payload a single streamed result carries, if any: the first
part of candidate 0's parts whose `InlineData` is non-nil (none when the
result has no candidates, nil content or no parts). -/
def resultInline (r : GoMain.GenResult) : Option GoMain.InlineData :=
  match r.candidates.head? with
  | none => none
  | some c0 =>
    match c0.content with
    | none => none
    | some ct =>
      if ct.parts.isEmpty then none else GoMain.findInline ct.parts

/-- The first inline image payload of the stream, in the scan order of
main.go's `generateSingleImage`. -/
def firstInline : List GoMain.StreamItem → Option GoMain.InlineData
  | [] => none
  | GoMain.StreamItem.err _ :: _ => none
  | GoMain.StreamItem.ok r :: rest =>
    match resultInline r with
    | some d => some d
    | none => firstInline rest

theorem generateSingleImage_spec (s : List GoMain.StreamItem)
    (h : streamErrFree s = true) :
    GoMain.generateSingleImage s =
      match firstInline s with
      | some d =>
          Except.ok (d.data, if d.mimeType = "" then "image/png" else d.mimeType)
      | none => Except.error "no image returned" := by
  induction s with
  | nil => rfl
  | cons it rest ih =>
    cases it with
    | err e => simp [streamErrFree] at h
    | ok r =>
      have h' : streamErrFree rest = true := by
        simp only [streamErrFree, List.all_cons, Bool.and_eq_true] at h
        exact h.2
      rw [GoMain.generateSingleImage, firstInline]
      cases hc : r.candidates.head? with
      | none => simp [resultInline, hc, ih h']
      | some c0 =>
        cases hct : c0.content with
        | none => simp [resultInline, hc, hct, ih h']
        | some ct =>
          by_cases hp : ct.parts.isEmpty
          · simp [resultInline, hc, hct, hp, ih h']
          · cases hf : GoMain.findInline ct.parts with
            | none => simp [resultInline, hc, hct, hp, hf, ih h']
            | some d => simp [resultInline, hc, hct, hp, hf]

theorem mainTextToImage_valid (up : String → List GoMain.StreamItem)
    (p : String) (hp : p ≠ "") :
    GoMain.handleTextToImage up ⟨"POST", some ⟨p⟩⟩ =
      match GoMain.generateSingleImage (up p) with
      | Except.error e =>
          ⟨GoMain.writeError ("generation error: " ++ e) 500, [p],
            ["Error generating image: " ++ e]⟩
      | Except.ok (i, m) => ⟨GoMain.writeImage i m, [p], []⟩ := by
  simp [GoMain.handleTextToImage, hp]

theorem mainResize_valid (up : String → List GoMain.StreamItem)
    (img : String) (scale : Int) (h1 : img ≠ "")
    (h3 : base64StdDecodeOk img = true) (h5 : scale = 2 ∨ scale = 4) :
    GoMain.handleResize up ⟨"POST", some ⟨img, scale⟩⟩ =
      match GoMain.generateSingleImage (up (resizePrompt scale)) with
      | Except.error e =>
          ⟨GoMain.writeError ("resize error: " ++ e) 500, [resizePrompt scale],
            ["Error resizing image: " ++ e]⟩
      | Except.ok (i, m) =>
          ⟨GoMain.writeImage i m, [resizePrompt scale], []⟩ := by
  rcases h5 with h5 | h5 <;> subst h5 <;> simp [GoMain.handleResize, h1, h3]

theorem mainSketch_valid (up : String → List GoMain.StreamItem)
    (img desc : String) (h1 : img ≠ "") (h3 : base64StdDecodeOk img = true)
    (h6 : desc ≠ "") :
    GoMain.handleSketchToImage up ⟨"POST", some ⟨img, desc⟩⟩ =
      match GoMain.generateSingleImage (up (GoMain.sketchPrompt desc)) with
      | Except.error e =>
          ⟨GoMain.writeError ("sketch error: " ++ e) 500,
            [GoMain.sketchPrompt desc],
            ["Error converting sketch to image: " ++ e]⟩
      | Except.ok (i, m) =>
          ⟨GoMain.writeImage i m, [GoMain.sketchPrompt desc], []⟩ := by
  simp [GoMain.handleSketchToImage, h1, h3, h6]

theorem mainEraser_valid (up : String → List GoMain.StreamItem)
    (img : String) (h1 : img ≠ "") (h3 : base64StdDecodeOk img = true) :
    GoMain.handleMagicEraser up ⟨"POST", some ⟨img⟩⟩ =
      match GoMain.generateSingleImage (up GoMain.eraserPrompt) with
      | Except.error e =>
          ⟨GoMain.writeError ("eraser error: " ++ e) 500, [GoMain.eraserPrompt],
            ["Error with magic eraser: " ++ e]⟩
      | Except.ok (i, m) =>
          ⟨GoMain.writeImage i m, [GoMain.eraserPrompt], []⟩ := by
  simp [GoMain.handleMagicEraser, h1, h3]

theorem v0TextToImage_valid (up : String → Except String GoV0.GenerateImagesResponse)
    (p : String) (hp : p ≠ "") :
    GoV0.handleTextToImage up ⟨"POST", some ⟨p⟩⟩ =
      match GoV0.generateSingleImage (up p) with
      | Except.error _ => ⟨GoV0.httpError "generation error" 500, [p], []⟩
      | Except.ok i => ⟨GoV0.writeImagePNG i, [p], []⟩ := by
  simp [GoV0.handleTextToImage, hp]

theorem v0Resize_valid (up : String → Except String GoV0.GenerateImagesResponse)
    (img : String) (scale : Int) (h1 : img ≠ "")
    (h3 : base64StdDecodeOk img = true) (h5 : scale = 2 ∨ scale = 4) :
    GoV0.handleResize up ⟨"POST", some ⟨img, scale⟩⟩ =
      match GoV0.generateSingleImage (up (resizePrompt scale)) with
      | Except.error _ =>
          ⟨GoV0.httpError "resize error" 500, [resizePrompt scale], []⟩
      | Except.ok i => ⟨GoV0.writeImagePNG i, [resizePrompt scale], []⟩ := by
  rcases h5 with h5 | h5 <;> subst h5 <;> simp [GoV0.handleResize, h1, h3]

theorem v0Sketch_valid (up : String → Except String GoV0.GenerateImagesResponse)
    (img desc : String) (h1 : img ≠ "") (h3 : base64StdDecodeOk img = true)
    (h6 : desc ≠ "") :
    GoV0.handleSketchToImage up ⟨"POST", some ⟨img, desc⟩⟩ =
      match GoV0.generateSingleImage (up (GoV0.sketchPrompt desc)) with
      | Except.error _ =>
          ⟨GoV0.httpError "sketch error" 500, [GoV0.sketchPrompt desc], []⟩
      | Except.ok i =>
          ⟨GoV0.writeImagePNG i, [GoV0.sketchPrompt desc], []⟩ := by
  simp [GoV0.handleSketchToImage, h1, h3, h6]

theorem v0Eraser_valid (up : String → Except String GoV0.GenerateImagesResponse)
    (img : String) (h1 : img ≠ "") (h3 : base64StdDecodeOk img = true) :
    GoV0.handleMagicEraser up ⟨"POST", some ⟨img⟩⟩ =
      match GoV0.generateSingleImage (up GoV0.eraserPrompt) with
      | Except.error _ => ⟨GoV0.httpError "eraser error" 500, [GoV0.eraserPrompt], []⟩
      | Except.ok i => ⟨GoV0.writeImagePNG i, [GoV0.eraserPrompt], []⟩ := by
  simp [GoV0.handleMagicEraser, h1, h3]

theorem mainMatch_calls (res : Except String (List Nat × String)) (p : String)
    (errPre logPre : String) :
    (match res with
      | Except.error e =>
          (⟨GoMain.writeError (errPre ++ e) 500, [p], [logPre ++ e]⟩ : HandlerOutcome)
      | Except.ok (i, m) =>
          ⟨GoMain.writeImage i m, [p], []⟩).upstreamCalls = [p] := by
  cases res with
  | error e => rfl
  | ok v => cases v; rfl

theorem v0Match_calls (res : Except String (List Nat)) (p msg : String) :
    (match res with
      | Except.error _ => (⟨GoV0.httpError msg 500, [p], []⟩ : HandlerOutcome)
      | Except.ok i => ⟨GoV0.writeImagePNG i, [p], []⟩).upstreamCalls = [p] := by
  cases res with
  | error e => rfl
  | ok v => rfl

/-- The response of the part_000 variant's /text-to-image handler to a GET
request: used as the concrete input refuting claim C1 as stated. -/
def c1CexResponse : HttpResponse :=
  (GoV0.handleTextToImage (fun _ => Except.error "upstream")
    { method := "GET", body := none }).response

/-- C1 counterexample: in the part_000 variant a GET on /text-to-image is a
handled request whose response (405, plain text POST only, written by Go's
http.Error) is neither a 200 image response nor an error response with a
JSON body of the shape with key error, so the claim's dichotomy fails as
stated. -/
theorem c1_cex_text_plain_error :
    ¬ ((c1CexResponse.status = 200 ∧ ∃ d, c1CexResponse.body = RespBody.image d) ∨
       (¬(200 ≤ c1CexResponse.status ∧ c1CexResponse.status ≤ 299) ∧
         ∃ m, c1CexResponse.body = RespBody.jsonError m)) := by
  have h : c1CexResponse =
      { status := 405, contentType := "text/plain; charset=utf-8",
        body := RespBody.textError "POST only" } := rfl
  rw [h]
  rintro (⟨h200, -⟩ | ⟨-, m, hm⟩)
  · simp at h200
  · exact RespBody.noConfusion hm

/-- C1 (amended): for every handled request on every endpoint of either
variant, the response is exactly one of two shapes: a 200 response whose
body is an image byte stream with a non-empty Content-Type, or an error
response with status 400, 405 or 500 and an error body — in main.go the
JSON object with key error and Content-Type application/json, in the
part_000 variant the plain-text message written by http.Error; no response
mixes the shapes or has neither. -/
theorem c1_response_dichotomy :
    (∀ up r, mainRespShape (GoMain.handleTextToImage up r).response) ∧
    (∀ up r, mainRespShape (GoMain.handleResize up r).response) ∧
    (∀ up r, mainRespShape (GoMain.handleSketchToImage up r).response) ∧
    (∀ up r, mainRespShape (GoMain.handleMagicEraser up r).response) ∧
    (∀ up r, v0RespShape (GoV0.handleTextToImage up r).response) ∧
    (∀ up r, v0RespShape (GoV0.handleResize up r).response) ∧
    (∀ up r, v0RespShape (GoV0.handleSketchToImage up r).response) ∧
    (∀ up r, v0RespShape (GoV0.handleMagicEraser up r).response) :=
  ⟨mainShape_handleTextToImage, mainShape_handleResize,
   mainShape_handleSketchToImage, mainShape_handleMagicEraser,
   v0Shape_handleTextToImage, v0Shape_handleResize,
   v0Shape_handleSketchToImage, v0Shape_handleMagicEraser⟩

/-- C4: on all four endpoints of both variants, a request whose method is
not POST yields exactly the 405 response with message POST only, no
upstream call and no log line, and the outcome does not depend on the body
(the body binders are universally quantified and the outcome is the same
constant for each of them: the body is never parsed). -/
theorem c4_non_post_is_405 (m : String) (h : m ≠ "POST")
    (upM : String → List GoMain.StreamItem)
    (upV : String → Except String GoV0.GenerateImagesResponse)
    (bT : Option TextToImageRequest) (bR : Option ResizeRequest)
    (bS : Option SketchToImageRequest) (bE : Option MagicEraserRequest) :
    GoMain.handleTextToImage upM ⟨m, bT⟩ =
      ⟨GoMain.writeError "POST only" 405, [], []⟩ ∧
    GoMain.handleResize upM ⟨m, bR⟩ =
      ⟨GoMain.writeError "POST only" 405, [], []⟩ ∧
    GoMain.handleSketchToImage upM ⟨m, bS⟩ =
      ⟨GoMain.writeError "POST only" 405, [], []⟩ ∧
    GoMain.handleMagicEraser upM ⟨m, bE⟩ =
      ⟨GoMain.writeError "POST only" 405, [], []⟩ ∧
    GoV0.handleTextToImage upV ⟨m, bT⟩ =
      ⟨GoV0.httpError "POST only" 405, [], []⟩ ∧
    GoV0.handleResize upV ⟨m, bR⟩ =
      ⟨GoV0.httpError "POST only" 405, [], []⟩ ∧
    GoV0.handleSketchToImage upV ⟨m, bS⟩ =
      ⟨GoV0.httpError "POST only" 405, [], []⟩ ∧
    GoV0.handleMagicEraser upV ⟨m, bE⟩ =
      ⟨GoV0.httpError "POST only" 405, [], []⟩ := by
  refine ⟨?_, ?_, ?_, ?_, ?_, ?_, ?_, ?_⟩ <;>
    simp [GoMain.handleTextToImage, GoMain.handleResize,
      GoMain.handleSketchToImage, GoMain.handleMagicEraser,
      GoV0.handleTextToImage, GoV0.handleResize,
      GoV0.handleSketchToImage, GoV0.handleMagicEraser, h]

/-- C4 witness at the concrete non-POST method GET. -/
theorem c4_witness :
    ("GET" : String) ≠ "POST" ∧
    (GoMain.handleTextToImage (fun _ => []) ⟨"GET", none⟩ =
        ⟨GoMain.writeError "POST only" 405, [], []⟩ ∧
      GoMain.handleResize (fun _ => []) ⟨"GET", none⟩ =
        ⟨GoMain.writeError "POST only" 405, [], []⟩ ∧
      GoMain.handleSketchToImage (fun _ => []) ⟨"GET", none⟩ =
        ⟨GoMain.writeError "POST only" 405, [], []⟩ ∧
      GoMain.handleMagicEraser (fun _ => []) ⟨"GET", none⟩ =
        ⟨GoMain.writeError "POST only" 405, [], []⟩ ∧
      GoV0.handleTextToImage (fun _ => Except.error "e") ⟨"GET", none⟩ =
        ⟨GoV0.httpError "POST only" 405, [], []⟩ ∧
      GoV0.handleResize (fun _ => Except.error "e") ⟨"GET", none⟩ =
        ⟨GoV0.httpError "POST only" 405, [], []⟩ ∧
      GoV0.handleSketchToImage (fun _ => Except.error "e") ⟨"GET", none⟩ =
        ⟨GoV0.httpError "POST only" 405, [], []⟩ ∧
      GoV0.handleMagicEraser (fun _ => Except.error "e") ⟨"GET", none⟩ =
        ⟨GoV0.httpError "POST only" 405, [], []⟩) :=
  ⟨by decide,
   c4_non_post_is_405 "GET" (by decide) (fun _ => []) (fun _ => Except.error "e")
     none none none none⟩

/-- The malformed-request condition of /text-to-image listed by claim C3:
undecodable body or empty prompt. -/
def textToImageBad : Option TextToImageRequest → Prop
  | none => True
  | some q => q.prompt = ""

/-- The malformed-request condition of /resize listed by claim C3:
undecodable body, empty image, scale outside two and four, or invalid
base64. -/
def resizeBad : Option ResizeRequest → Prop
  | none => True
  | some q =>
      q.imageBase64 = "" ∨ (q.scale ≠ 2 ∧ q.scale ≠ 4) ∨
        base64StdDecodeOk q.imageBase64 = false

/-- The malformed-request condition of /sketch-to-image listed by claim C3. -/
def sketchBad : Option SketchToImageRequest → Prop
  | none => True
  | some q =>
      q.imageBase64 = "" ∨ q.description = "" ∨
        base64StdDecodeOk q.imageBase64 = false

/-- The malformed-request condition of /magic-eraser listed by claim C3. -/
def eraserBad : Option MagicEraserRequest → Prop
  | none => True
  | some q => q.imageBase64 = "" ∨ base64StdDecodeOk q.imageBase64 = false

theorem badIff_main_text (up : String → List GoMain.StreamItem)
    (b : Option TextToImageRequest) :
    ((GoMain.handleTextToImage up ⟨"POST", b⟩).response.status = 400 ∧
      (GoMain.handleTextToImage up ⟨"POST", b⟩).upstreamCalls = []) ↔
      textToImageBad b := by
  cases b with
  | none => simp [GoMain.handleTextToImage, GoMain.writeError, textToImageBad]
  | some q =>
    obtain ⟨p⟩ := q
    by_cases hp : p = ""
    · simp [GoMain.handleTextToImage, GoMain.writeError, textToImageBad, hp]
    · rw [mainTextToImage_valid up p hp]
      cases hgen : GoMain.generateSingleImage (up p) with
      | error e =>
          simp [hgen, textToImageBad, hp, GoMain.writeError]
      | ok v =>
          obtain ⟨i, mm⟩ := v
          simp [hgen, textToImageBad, hp, GoMain.writeImage]

theorem badIff_main_resize (up : String → List GoMain.StreamItem)
    (b : Option ResizeRequest) :
    ((GoMain.handleResize up ⟨"POST", b⟩).response.status = 400 ∧
      (GoMain.handleResize up ⟨"POST", b⟩).upstreamCalls = []) ↔
      resizeBad b := by
  cases b with
  | none => simp [GoMain.handleResize, GoMain.writeError, resizeBad]
  | some q =>
    obtain ⟨img, sc⟩ := q
    by_cases h1 : img = ""
    · simp [GoMain.handleResize, GoMain.writeError, resizeBad, h1]
    · by_cases h5 : sc = 2 ∨ sc = 4
      · have hsc : ¬(sc ≠ 2 ∧ sc ≠ 4) := by tauto
        by_cases h3 : base64StdDecodeOk img = true
        · rw [mainResize_valid up img sc h1 h3 h5]
          cases hgen : GoMain.generateSingleImage (up (resizePrompt sc)) with
          | error e =>
              simp [hgen, resizeBad, h1, h3, hsc, GoMain.writeError]
          | ok v =>
              obtain ⟨i, mm⟩ := v
              simp [hgen, resizeBad, h1, h3, hsc, GoMain.writeImage]
        · have h3f : base64StdDecodeOk img = false := by
            revert h3; cases base64StdDecodeOk img <;> simp
          simp [GoMain.handleResize, GoMain.writeError, resizeBad, h1, hsc, h3f]
      · have hsc : sc ≠ 2 ∧ sc ≠ 4 := by tauto
        simp [GoMain.handleResize, GoMain.writeError, resizeBad, h1, hsc]

theorem badIff_main_sketch (up : String → List GoMain.StreamItem)
    (b : Option SketchToImageRequest) :
    ((GoMain.handleSketchToImage up ⟨"POST", b⟩).response.status = 400 ∧
      (GoMain.handleSketchToImage up ⟨"POST", b⟩).upstreamCalls = []) ↔
      sketchBad b := by
  cases b with
  | none => simp [GoMain.handleSketchToImage, GoMain.writeError, sketchBad]
  | some q =>
    obtain ⟨img, desc⟩ := q
    by_cases h1 : img = "" ∨ desc = ""
    · simp only [GoMain.handleSketchToImage, if_pos h1]
      simp [GoMain.writeError, sketchBad]
      tauto
    · push_neg at h1
      by_cases h3 : base64StdDecodeOk img = true
      · rw [mainSketch_valid up img desc h1.1 h3 h1.2]
        cases hgen : GoMain.generateSingleImage (up (GoMain.sketchPrompt desc)) with
        | error e =>
            simp [hgen, sketchBad, h1.1, h1.2, h3, GoMain.writeError]
        | ok v =>
            obtain ⟨i, mm⟩ := v
            simp [hgen, sketchBad, h1.1, h1.2, h3, GoMain.writeImage]
      · have h3f : base64StdDecodeOk img = false := by
          revert h3; cases base64StdDecodeOk img <;> simp
        simp [GoMain.handleSketchToImage, GoMain.writeError, sketchBad,
          h1.1, h1.2, h3f]

theorem badIff_main_eraser (up : String → List GoMain.StreamItem)
    (b : Option MagicEraserRequest) :
    ((GoMain.handleMagicEraser up ⟨"POST", b⟩).response.status = 400 ∧
      (GoMain.handleMagicEraser up ⟨"POST", b⟩).upstreamCalls = []) ↔
      eraserBad b := by
  cases b with
  | none => simp [GoMain.handleMagicEraser, GoMain.writeError, eraserBad]
  | some q =>
    obtain ⟨img⟩ := q
    by_cases h1 : img = ""
    · simp [GoMain.handleMagicEraser, GoMain.writeError, eraserBad, h1]
    · by_cases h3 : base64StdDecodeOk img = true
      · rw [mainEraser_valid up img h1 h3]
        cases hgen : GoMain.generateSingleImage (up GoMain.eraserPrompt) with
        | error e =>
            simp [hgen, eraserBad, h1, h3, GoMain.writeError]
        | ok v =>
            obtain ⟨i, mm⟩ := v
            simp [hgen, eraserBad, h1, h3, GoMain.writeImage]
      · have h3f : base64StdDecodeOk img = false := by
          revert h3; cases base64StdDecodeOk img <;> simp
        simp [GoMain.handleMagicEraser, GoMain.writeError, eraserBad, h1, h3f]

theorem badIff_v0_text (up : String → Except String GoV0.GenerateImagesResponse)
    (b : Option TextToImageRequest) :
    ((GoV0.handleTextToImage up ⟨"POST", b⟩).response.status = 400 ∧
      (GoV0.handleTextToImage up ⟨"POST", b⟩).upstreamCalls = []) ↔
      textToImageBad b := by
  cases b with
  | none => simp [GoV0.handleTextToImage, GoV0.httpError, textToImageBad]
  | some q =>
    obtain ⟨p⟩ := q
    by_cases hp : p = ""
    · simp [GoV0.handleTextToImage, GoV0.httpError, textToImageBad, hp]
    · rw [v0TextToImage_valid up p hp]
      cases hgen : GoV0.generateSingleImage (up p) with
      | error e => simp [hgen, textToImageBad, hp, GoV0.httpError]
      | ok i => simp [hgen, textToImageBad, hp, GoV0.writeImagePNG]

theorem badIff_v0_resize (up : String → Except String GoV0.GenerateImagesResponse)
    (b : Option ResizeRequest) :
    ((GoV0.handleResize up ⟨"POST", b⟩).response.status = 400 ∧
      (GoV0.handleResize up ⟨"POST", b⟩).upstreamCalls = []) ↔
      resizeBad b := by
  cases b with
  | none => simp [GoV0.handleResize, GoV0.httpError, resizeBad]
  | some q =>
    obtain ⟨img, sc⟩ := q
    by_cases h1 : img = ""
    · simp [GoV0.handleResize, GoV0.httpError, resizeBad, h1]
    · by_cases h5 : sc = 2 ∨ sc = 4
      · have hsc : ¬(sc ≠ 2 ∧ sc ≠ 4) := by tauto
        by_cases h3 : base64StdDecodeOk img = true
        · rw [v0Resize_valid up img sc h1 h3 h5]
          cases hgen : GoV0.generateSingleImage (up (resizePrompt sc)) with
          | error e => simp [hgen, resizeBad, h1, h3, hsc, GoV0.httpError]
          | ok i => simp [hgen, resizeBad, h1, h3, hsc, GoV0.writeImagePNG]
        · have h3f : base64StdDecodeOk img = false := by
            revert h3; cases base64StdDecodeOk img <;> simp
          simp [GoV0.handleResize, GoV0.httpError, resizeBad, h1, hsc, h3f]
      · have hsc : sc ≠ 2 ∧ sc ≠ 4 := by tauto
        simp [GoV0.handleResize, GoV0.httpError, resizeBad, h1, hsc]

theorem badIff_v0_sketch (up : String → Except String GoV0.GenerateImagesResponse)
    (b : Option SketchToImageRequest) :
    ((GoV0.handleSketchToImage up ⟨"POST", b⟩).response.status = 400 ∧
      (GoV0.handleSketchToImage up ⟨"POST", b⟩).upstreamCalls = []) ↔
      sketchBad b := by
  cases b with
  | none => simp [GoV0.handleSketchToImage, GoV0.httpError, sketchBad]
  | some q =>
    obtain ⟨img, desc⟩ := q
    by_cases h1 : img = "" ∨ desc = ""
    · simp only [GoV0.handleSketchToImage, if_pos h1]
      simp [GoV0.httpError, sketchBad]
      tauto
    · push_neg at h1
      by_cases h3 : base64StdDecodeOk img = true
      · rw [v0Sketch_valid up img desc h1.1 h3 h1.2]
        cases hgen : GoV0.generateSingleImage (up (GoV0.sketchPrompt desc)) with
        | error e => simp [hgen, sketchBad, h1.1, h1.2, h3, GoV0.httpError]
        | ok i => simp [hgen, sketchBad, h1.1, h1.2, h3, GoV0.writeImagePNG]
      · have h3f : base64StdDecodeOk img = false := by
          revert h3; cases base64StdDecodeOk img <;> simp
        simp [GoV0.handleSketchToImage, GoV0.httpError, sketchBad,
          h1.1, h1.2, h3f]

theorem badIff_v0_eraser (up : String → Except String GoV0.GenerateImagesResponse)
    (b : Option MagicEraserRequest) :
    ((GoV0.handleMagicEraser up ⟨"POST", b⟩).response.status = 400 ∧
      (GoV0.handleMagicEraser up ⟨"POST", b⟩).upstreamCalls = []) ↔
      eraserBad b := by
  cases b with
  | none => simp [GoV0.handleMagicEraser, GoV0.httpError, eraserBad]
  | some q =>
    obtain ⟨img⟩ := q
    by_cases h1 : img = ""
    · simp [GoV0.handleMagicEraser, GoV0.httpError, eraserBad, h1]
    · by_cases h3 : base64StdDecodeOk img = true
      · rw [v0Eraser_valid up img h1 h3]
        cases hgen : GoV0.generateSingleImage (up GoV0.eraserPrompt) with
        | error e => simp [hgen, eraserBad, h1, h3, GoV0.httpError]
        | ok i => simp [hgen, eraserBad, h1, h3, GoV0.writeImagePNG]
      · have h3f : base64StdDecodeOk img = false := by
          revert h3; cases base64StdDecodeOk img <;> simp
        simp [GoV0.handleMagicEraser, GoV0.httpError, eraserBad, h1, h3f]

/-- C3: for every POST request to any of the four endpoints of either
variant, the handler responds 400 and makes no upstream call exactly when
the body fails to decode as JSON, a required string field is empty, the
scale of /resize is neither 2 nor 4, or a base64 image field fails to
decode under the standard base64 encoding. -/
theorem c3_400_iff_malformed :
    (∀ (up : String → List GoMain.StreamItem) b,
      ((GoMain.handleTextToImage up ⟨"POST", b⟩).response.status = 400 ∧
        (GoMain.handleTextToImage up ⟨"POST", b⟩).upstreamCalls = []) ↔
        textToImageBad b) ∧
    (∀ (up : String → List GoMain.StreamItem) b,
      ((GoMain.handleResize up ⟨"POST", b⟩).response.status = 400 ∧
        (GoMain.handleResize up ⟨"POST", b⟩).upstreamCalls = []) ↔
        resizeBad b) ∧
    (∀ (up : String → List GoMain.StreamItem) b,
      ((GoMain.handleSketchToImage up ⟨"POST", b⟩).response.status = 400 ∧
        (GoMain.handleSketchToImage up ⟨"POST", b⟩).upstreamCalls = []) ↔
        sketchBad b) ∧
    (∀ (up : String → List GoMain.StreamItem) b,
      ((GoMain.handleMagicEraser up ⟨"POST", b⟩).response.status = 400 ∧
        (GoMain.handleMagicEraser up ⟨"POST", b⟩).upstreamCalls = []) ↔
        eraserBad b) ∧
    (∀ (up : String → Except String GoV0.GenerateImagesResponse) b,
      ((GoV0.handleTextToImage up ⟨"POST", b⟩).response.status = 400 ∧
        (GoV0.handleTextToImage up ⟨"POST", b⟩).upstreamCalls = []) ↔
        textToImageBad b) ∧
    (∀ (up : String → Except String GoV0.GenerateImagesResponse) b,
      ((GoV0.handleResize up ⟨"POST", b⟩).response.status = 400 ∧
        (GoV0.handleResize up ⟨"POST", b⟩).upstreamCalls = []) ↔
        resizeBad b) ∧
    (∀ (up : String → Except String GoV0.GenerateImagesResponse) b,
      ((GoV0.handleSketchToImage up ⟨"POST", b⟩).response.status = 400 ∧
        (GoV0.handleSketchToImage up ⟨"POST", b⟩).upstreamCalls = []) ↔
        sketchBad b) ∧
    (∀ (up : String → Except String GoV0.GenerateImagesResponse) b,
      ((GoV0.handleMagicEraser up ⟨"POST", b⟩).response.status = 400 ∧
        (GoV0.handleMagicEraser up ⟨"POST", b⟩).upstreamCalls = []) ↔
        eraserBad b) :=
  ⟨badIff_main_text, badIff_main_resize, badIff_main_sketch, badIff_main_eraser,
   badIff_v0_text, badIff_v0_resize, badIff_v0_sketch, badIff_v0_eraser⟩

/-- C2: for every valid request to /resize, /sketch-to-image or
/magic-eraser in either variant, the single upstream call receives only the
synthesized text prompt: the upstream-call list is exactly the one prompt,
a function of scale or description alone, and two valid requests that
differ only in the base64 image field produce identical outcomes, so the
image bytes influence nothing beyond the pass/fail validation decision and
are never transmitted upstream. -/
theorem c2_image_not_transmitted
    (upM : String → List GoMain.StreamItem)
    (upV : String → Except String GoV0.GenerateImagesResponse)
    (img img' desc : String) (scale : Int)
    (h1 : img ≠ "") (h2 : img' ≠ "")
    (h3 : base64StdDecodeOk img = true) (h4 : base64StdDecodeOk img' = true)
    (h5 : scale = 2 ∨ scale = 4) (h6 : desc ≠ "") :
    (GoMain.handleResize upM ⟨"POST", some ⟨img, scale⟩⟩ =
        GoMain.handleResize upM ⟨"POST", some ⟨img', scale⟩⟩ ∧
      (GoMain.handleResize upM ⟨"POST", some ⟨img, scale⟩⟩).upstreamCalls =
        [resizePrompt scale]) ∧
    (GoMain.handleSketchToImage upM ⟨"POST", some ⟨img, desc⟩⟩ =
        GoMain.handleSketchToImage upM ⟨"POST", some ⟨img', desc⟩⟩ ∧
      (GoMain.handleSketchToImage upM ⟨"POST", some ⟨img, desc⟩⟩).upstreamCalls =
        [GoMain.sketchPrompt desc]) ∧
    (GoMain.handleMagicEraser upM ⟨"POST", some ⟨img⟩⟩ =
        GoMain.handleMagicEraser upM ⟨"POST", some ⟨img'⟩⟩ ∧
      (GoMain.handleMagicEraser upM ⟨"POST", some ⟨img⟩⟩).upstreamCalls =
        [GoMain.eraserPrompt]) ∧
    (GoV0.handleResize upV ⟨"POST", some ⟨img, scale⟩⟩ =
        GoV0.handleResize upV ⟨"POST", some ⟨img', scale⟩⟩ ∧
      (GoV0.handleResize upV ⟨"POST", some ⟨img, scale⟩⟩).upstreamCalls =
        [resizePrompt scale]) ∧
    (GoV0.handleSketchToImage upV ⟨"POST", some ⟨img, desc⟩⟩ =
        GoV0.handleSketchToImage upV ⟨"POST", some ⟨img', desc⟩⟩ ∧
      (GoV0.handleSketchToImage upV ⟨"POST", some ⟨img, desc⟩⟩).upstreamCalls =
        [GoV0.sketchPrompt desc]) ∧
    (GoV0.handleMagicEraser upV ⟨"POST", some ⟨img⟩⟩ =
        GoV0.handleMagicEraser upV ⟨"POST", some ⟨img'⟩⟩ ∧
      (GoV0.handleMagicEraser upV ⟨"POST", some ⟨img⟩⟩).upstreamCalls =
        [GoV0.eraserPrompt]) := by
  refine ⟨⟨?_, ?_⟩, ⟨?_, ?_⟩, ⟨?_, ?_⟩, ⟨?_, ?_⟩, ⟨?_, ?_⟩, ⟨?_, ?_⟩⟩
  · rw [mainResize_valid upM img scale h1 h3 h5,
      mainResize_valid upM img' scale h2 h4 h5]
  · rw [mainResize_valid upM img scale h1 h3 h5]
    exact mainMatch_calls _ _ _ _
  · rw [mainSketch_valid upM img desc h1 h3 h6,
      mainSketch_valid upM img' desc h2 h4 h6]
  · rw [mainSketch_valid upM img desc h1 h3 h6]
    exact mainMatch_calls _ _ _ _
  · rw [mainEraser_valid upM img h1 h3, mainEraser_valid upM img' h2 h4]
  · rw [mainEraser_valid upM img h1 h3]
    exact mainMatch_calls _ _ _ _
  · rw [v0Resize_valid upV img scale h1 h3 h5,
      v0Resize_valid upV img' scale h2 h4 h5]
  · rw [v0Resize_valid upV img scale h1 h3 h5]
    exact v0Match_calls _ _ _
  · rw [v0Sketch_valid upV img desc h1 h3 h6,
      v0Sketch_valid upV img' desc h2 h4 h6]
  · rw [v0Sketch_valid upV img desc h1 h3 h6]
    exact v0Match_calls _ _ _
  · rw [v0Eraser_valid upV img h1 h3, v0Eraser_valid upV img' h2 h4]
  · rw [v0Eraser_valid upV img h1 h3]
    exact v0Match_calls _ _ _

/-- C2 witness at concrete valid inputs: two distinct valid base64 images,
scale 2, description cat, and stubbed upstreams. -/
theorem c2_witness :
    (("QUJD" : String) ≠ "" ∧ ("REVG" : String) ≠ "" ∧
      base64StdDecodeOk "QUJD" = true ∧ base64StdDecodeOk "REVG" = true ∧
      ((2 : Int) = 2 ∨ (2 : Int) = 4) ∧ ("cat" : String) ≠ "") ∧
    ((GoMain.handleResize (fun _ => []) ⟨"POST", some ⟨"QUJD", 2⟩⟩ =
        GoMain.handleResize (fun _ => []) ⟨"POST", some ⟨"REVG", 2⟩⟩ ∧
      (GoMain.handleResize (fun _ => []) ⟨"POST", some ⟨"QUJD", 2⟩⟩).upstreamCalls =
        [resizePrompt 2]) ∧
    (GoMain.handleSketchToImage (fun _ => []) ⟨"POST", some ⟨"QUJD", "cat"⟩⟩ =
        GoMain.handleSketchToImage (fun _ => []) ⟨"POST", some ⟨"REVG", "cat"⟩⟩ ∧
      (GoMain.handleSketchToImage (fun _ => [])
          ⟨"POST", some ⟨"QUJD", "cat"⟩⟩).upstreamCalls =
        [GoMain.sketchPrompt "cat"]) ∧
    (GoMain.handleMagicEraser (fun _ => []) ⟨"POST", some ⟨"QUJD"⟩⟩ =
        GoMain.handleMagicEraser (fun _ => []) ⟨"POST", some ⟨"REVG"⟩⟩ ∧
      (GoMain.handleMagicEraser (fun _ => []) ⟨"POST", some ⟨"QUJD"⟩⟩).upstreamCalls =
        [GoMain.eraserPrompt]) ∧
    (GoV0.handleResize (fun _ => Except.error "e") ⟨"POST", some ⟨"QUJD", 2⟩⟩ =
        GoV0.handleResize (fun _ => Except.error "e") ⟨"POST", some ⟨"REVG", 2⟩⟩ ∧
      (GoV0.handleResize (fun _ => Except.error "e")
          ⟨"POST", some ⟨"QUJD", 2⟩⟩).upstreamCalls =
        [resizePrompt 2]) ∧
    (GoV0.handleSketchToImage (fun _ => Except.error "e")
          ⟨"POST", some ⟨"QUJD", "cat"⟩⟩ =
        GoV0.handleSketchToImage (fun _ => Except.error "e")
          ⟨"POST", some ⟨"REVG", "cat"⟩⟩ ∧
      (GoV0.handleSketchToImage (fun _ => Except.error "e")
          ⟨"POST", some ⟨"QUJD", "cat"⟩⟩).upstreamCalls =
        [GoV0.sketchPrompt "cat"]) ∧
    (GoV0.handleMagicEraser (fun _ => Except.error "e") ⟨"POST", some ⟨"QUJD"⟩⟩ =
        GoV0.handleMagicEraser (fun _ => Except.error "e") ⟨"POST", some ⟨"REVG"⟩⟩ ∧
      (GoV0.handleMagicEraser (fun _ => Except.error "e")
          ⟨"POST", some ⟨"QUJD"⟩⟩).upstreamCalls =
        [GoV0.eraserPrompt])) :=
  ⟨⟨by decide, by decide, by decide, by decide, Or.inl rfl, by decide⟩,
   c2_image_not_transmitted (fun _ => []) (fun _ => Except.error "e")
     "QUJD" "REVG" "cat" 2 (by decide) (by decide) (by decide) (by decide)
     (Or.inl rfl) (by decide)⟩

/-- The outcome of part_000's /text-to-image handler on a valid request when
the upstream returns zero generated images: the concrete input refuting
claim C5 as stated. -/
def c5CexOutcome : HandlerOutcome :=
  GoV0.handleTextToImage (fun _ => Except.ok ⟨[]⟩) ⟨"POST", some ⟨"x"⟩⟩

/-- C5 counterexample: in the part_000 variant, a valid /text-to-image
request with an upstream returning zero images makes generateSingleImage
return the error no image returned and the endpoint respond 500, but the
body is the plain-text message written by http.Error, not a JSON body with
an error field, so the claim fails as stated. -/
theorem c5_cex_plain_text_500 :
    GoV0.generateSingleImage (Except.ok ⟨[]⟩) =
      Except.error "no image returned" ∧
    c5CexOutcome.response.status = 500 ∧
    ¬ ∃ m, c5CexOutcome.response.body = RespBody.jsonError m := by
  refine ⟨rfl, rfl, ?_⟩
  rintro ⟨m, hm⟩
  have h : c5CexOutcome.response.body = RespBody.textError "generation error" := rfl
  rw [h] at hm
  exact RespBody.noConfusion hm

/-- A part_000 upstream result that carries no image: a successful
GenerateImages response whose image list is empty or whose first generated
image is nil. -/
def v0NoImage (res : Except String GoV0.GenerateImagesResponse) : Prop :=
  ∃ resp, res = Except.ok resp ∧
    (resp.generatedImages.head? = none ∨
      ∃ g, resp.generatedImages.head? = some g ∧ g.image = none)

theorem v0_gen_noImage (res : Except String GoV0.GenerateImagesResponse)
    (h : v0NoImage res) :
    GoV0.generateSingleImage res = Except.error "no image returned" := by
  obtain ⟨resp, rfl, h⟩ := h
  rcases h with h | ⟨g, hg, hi⟩
  · simp [GoV0.generateSingleImage, h]
  · simp [GoV0.generateSingleImage, hg, hi]

theorem main_gen_noImage (s : List GoMain.StreamItem)
    (hef : streamErrFree s = true) (hfi : firstInline s = none) :
    GoMain.generateSingleImage s = Except.error "no image returned" := by
  rw [generateSingleImage_spec s hef, hfi]

/-- C5 (amended): when the upstream yields no inline image payload — in
main.go an error-free stream carrying no inline data, in part_000 a
successful response with no generated image — generateSingleImage returns
the error no image returned and every endpoint responds 500 with a
non-empty error message: in main.go a JSON error body whose message is the
endpoint prefix followed by no image returned, in the part_000 variant the
generic plain-text message written by http.Error. -/
theorem c5_no_image_500
    (upM : String → List GoMain.StreamItem)
    (upV : String → Except String GoV0.GenerateImagesResponse)
    (p img desc : String) (scale : Int)
    (hM : ∀ q, streamErrFree (upM q) = true ∧ firstInline (upM q) = none)
    (hV : ∀ q, v0NoImage (upV q))
    (hp : p ≠ "") (h1 : img ≠ "") (h3 : base64StdDecodeOk img = true)
    (h5 : scale = 2 ∨ scale = 4) (h6 : desc ≠ "") :
    (∀ q, GoMain.generateSingleImage (upM q) = Except.error "no image returned") ∧
    (∀ q, GoV0.generateSingleImage (upV q) = Except.error "no image returned") ∧
    GoMain.handleTextToImage upM ⟨"POST", some ⟨p⟩⟩ =
      ⟨GoMain.writeError "generation error: no image returned" 500, [p],
        ["Error generating image: no image returned"]⟩ ∧
    GoMain.handleResize upM ⟨"POST", some ⟨img, scale⟩⟩ =
      ⟨GoMain.writeError "resize error: no image returned" 500,
        [resizePrompt scale], ["Error resizing image: no image returned"]⟩ ∧
    GoMain.handleSketchToImage upM ⟨"POST", some ⟨img, desc⟩⟩ =
      ⟨GoMain.writeError "sketch error: no image returned" 500,
        [GoMain.sketchPrompt desc],
        ["Error converting sketch to image: no image returned"]⟩ ∧
    GoMain.handleMagicEraser upM ⟨"POST", some ⟨img⟩⟩ =
      ⟨GoMain.writeError "eraser error: no image returned" 500,
        [GoMain.eraserPrompt], ["Error with magic eraser: no image returned"]⟩ ∧
    GoV0.handleTextToImage upV ⟨"POST", some ⟨p⟩⟩ =
      ⟨GoV0.httpError "generation error" 500, [p], []⟩ ∧
    GoV0.handleResize upV ⟨"POST", some ⟨img, scale⟩⟩ =
      ⟨GoV0.httpError "resize error" 500, [resizePrompt scale], []⟩ ∧
    GoV0.handleSketchToImage upV ⟨"POST", some ⟨img, desc⟩⟩ =
      ⟨GoV0.httpError "sketch error" 500, [GoV0.sketchPrompt desc], []⟩ ∧
    GoV0.handleMagicEraser upV ⟨"POST", some ⟨img⟩⟩ =
      ⟨GoV0.httpError "eraser error" 500, [GoV0.eraserPrompt], []⟩ := by
  have hMg : ∀ q, GoMain.generateSingleImage (upM q) =
      Except.error "no image returned" :=
    fun q => main_gen_noImage (upM q) (hM q).1 (hM q).2
  have hVg : ∀ q, GoV0.generateSingleImage (upV q) =
      Except.error "no image returned" :=
    fun q => v0_gen_noImage (upV q) (hV q)
  refine ⟨hMg, hVg, ?_, ?_, ?_, ?_, ?_, ?_, ?_, ?_⟩
  · rw [mainTextToImage_valid upM p hp]; simp [hMg p]
  · rw [mainResize_valid upM img scale h1 h3 h5]; simp [hMg (resizePrompt scale)]
  · rw [mainSketch_valid upM img desc h1 h3 h6]
    simp [hMg (GoMain.sketchPrompt desc)]
  · rw [mainEraser_valid upM img h1 h3]; simp [hMg GoMain.eraserPrompt]
  · rw [v0TextToImage_valid upV p hp]; simp [hVg p]
  · rw [v0Resize_valid upV img scale h1 h3 h5]; simp [hVg (resizePrompt scale)]
  · rw [v0Sketch_valid upV img desc h1 h3 h6]
    simp [hVg (GoV0.sketchPrompt desc)]
  · rw [v0Eraser_valid upV img h1 h3]; simp [hVg GoV0.eraserPrompt]

/-- C5 witness at concrete inputs: an empty upstream stream for main.go, a
zero-image GenerateImages response for part_000, and valid request fields. -/
theorem c5_witness :
    ((∀ q : String, streamErrFree ((fun _ => []) q : List GoMain.StreamItem) = true ∧
        firstInline ((fun _ => []) q : List GoMain.StreamItem) = none) ∧
      (∀ q : String, v0NoImage ((fun _ => Except.ok ⟨[]⟩) q)) ∧
      ("x" : String) ≠ "" ∧ ("QUJD" : String) ≠ "" ∧
      base64StdDecodeOk "QUJD" = true ∧ ((2 : Int) = 2 ∨ (2 : Int) = 4) ∧
      ("cat" : String) ≠ "") ∧
    GoMain.handleTextToImage (fun _ => []) ⟨"POST", some ⟨"x"⟩⟩ =
      ⟨GoMain.writeError "generation error: no image returned" 500, ["x"],
        ["Error generating image: no image returned"]⟩ ∧
    GoV0.handleTextToImage (fun _ => Except.ok ⟨[]⟩) ⟨"POST", some ⟨"x"⟩⟩ =
      ⟨GoV0.httpError "generation error" 500, ["x"], []⟩ :=
  ⟨⟨fun _ => ⟨rfl, rfl⟩, fun _ => ⟨⟨[]⟩, rfl, Or.inl rfl⟩, by decide, by decide,
     by decide, Or.inl rfl, by decide⟩,
   (c5_no_image_500 (fun _ => []) (fun _ => Except.ok ⟨[]⟩) "x" "QUJD" "cat" 2
      (fun _ => ⟨rfl, rfl⟩) (fun _ => ⟨⟨[]⟩, rfl, Or.inl rfl⟩) (by decide)
      (by decide) (by decide) (Or.inl rfl) (by decide)).2.2.1,
   (c5_no_image_500 (fun _ => []) (fun _ => Except.ok ⟨[]⟩) "x" "QUJD" "cat" 2
      (fun _ => ⟨rfl, rfl⟩) (fun _ => ⟨⟨[]⟩, rfl, Or.inl rfl⟩) (by decide)
      (by decide) (by decide) (Or.inl rfl) (by decide)).2.2.2.2.2.2.1⟩

/-- The outcome of main.go's /text-to-image handler on a valid request when
the upstream call fails with a detailed internal error: the concrete input
refuting claim C6 as stated. -/
def c6CexOutcome : HandlerOutcome :=
  GoMain.handleTextToImage
    (fun _ => [GoMain.StreamItem.err "internal upstream detail"])
    ⟨"POST", some ⟨"x"⟩⟩

/-- C6 counterexample: in main.go the client-facing 500 body is built with
Sprintf of the upstream error, so it contains the upstream error's full
internal detail as a substring, refuting the claim that the client-facing
message carries only a generic short message without the upstream detail. -/
theorem c6_cex_client_message_leaks :
    c6CexOutcome.response.status = 500 ∧
    c6CexOutcome.response.body =
      RespBody.jsonError ("generation error: " ++ "internal upstream detail") ∧
    ∃ pre post,
      ("generation error: " ++ "internal upstream detail" : String) =
        pre ++ "internal upstream detail" ++ post :=
  ⟨rfl, rfl, "generation error: ", "", rfl⟩

/-- C6 (amended): for every upstream failure, main.go responds 500 with a
JSON message that is the endpoint's short prefix followed by the upstream
error's full text — so the client-facing message does include the upstream
detail — and logs the same detail server-side; the part_000 variant
responds 500 with only a fixed generic message and logs nothing. -/
theorem c6_error_messages
    (upM : String → List GoMain.StreamItem)
    (upV : String → Except String GoV0.GenerateImagesResponse)
    (p img desc : String) (scale : Int) (e : String)
    (hM : ∀ q, GoMain.generateSingleImage (upM q) = Except.error e)
    (hV : ∀ q, GoV0.generateSingleImage (upV q) = Except.error e)
    (hp : p ≠ "") (h1 : img ≠ "") (h3 : base64StdDecodeOk img = true)
    (h5 : scale = 2 ∨ scale = 4) (h6 : desc ≠ "") :
    GoMain.handleTextToImage upM ⟨"POST", some ⟨p⟩⟩ =
      ⟨GoMain.writeError ("generation error: " ++ e) 500, [p],
        ["Error generating image: " ++ e]⟩ ∧
    GoMain.handleResize upM ⟨"POST", some ⟨img, scale⟩⟩ =
      ⟨GoMain.writeError ("resize error: " ++ e) 500, [resizePrompt scale],
        ["Error resizing image: " ++ e]⟩ ∧
    GoMain.handleSketchToImage upM ⟨"POST", some ⟨img, desc⟩⟩ =
      ⟨GoMain.writeError ("sketch error: " ++ e) 500,
        [GoMain.sketchPrompt desc], ["Error converting sketch to image: " ++ e]⟩ ∧
    GoMain.handleMagicEraser upM ⟨"POST", some ⟨img⟩⟩ =
      ⟨GoMain.writeError ("eraser error: " ++ e) 500, [GoMain.eraserPrompt],
        ["Error with magic eraser: " ++ e]⟩ ∧
    GoV0.handleTextToImage upV ⟨"POST", some ⟨p⟩⟩ =
      ⟨GoV0.httpError "generation error" 500, [p], []⟩ ∧
    GoV0.handleResize upV ⟨"POST", some ⟨img, scale⟩⟩ =
      ⟨GoV0.httpError "resize error" 500, [resizePrompt scale], []⟩ ∧
    GoV0.handleSketchToImage upV ⟨"POST", some ⟨img, desc⟩⟩ =
      ⟨GoV0.httpError "sketch error" 500, [GoV0.sketchPrompt desc], []⟩ ∧
    GoV0.handleMagicEraser upV ⟨"POST", some ⟨img⟩⟩ =
      ⟨GoV0.httpError "eraser error" 500, [GoV0.eraserPrompt], []⟩ := by
  refine ⟨?_, ?_, ?_, ?_, ?_, ?_, ?_, ?_⟩
  · rw [mainTextToImage_valid upM p hp]; simp [hM p]
  · rw [mainResize_valid upM img scale h1 h3 h5]; simp [hM (resizePrompt scale)]
  · rw [mainSketch_valid upM img desc h1 h3 h6]
    simp [hM (GoMain.sketchPrompt desc)]
  · rw [mainEraser_valid upM img h1 h3]; simp [hM GoMain.eraserPrompt]
  · rw [v0TextToImage_valid upV p hp]; simp [hV p]
  · rw [v0Resize_valid upV img scale h1 h3 h5]; simp [hV (resizePrompt scale)]
  · rw [v0Sketch_valid upV img desc h1 h3 h6]
    simp [hV (GoV0.sketchPrompt desc)]
  · rw [v0Eraser_valid upV img h1 h3]; simp [hV GoV0.eraserPrompt]

/-- C6 witness at concrete inputs: an upstream failing with the error text
boom on both variants. -/
theorem c6_witness :
    ((∀ q : String,
        GoMain.generateSingleImage
          ((fun _ => [GoMain.StreamItem.err "boom"]) q) = Except.error "boom") ∧
      (∀ q : String,
        GoV0.generateSingleImage ((fun _ => Except.error "boom") q) =
          Except.error "boom") ∧
      ("x" : String) ≠ "" ∧ ("QUJD" : String) ≠ "" ∧
      base64StdDecodeOk "QUJD" = true ∧ ((2 : Int) = 2 ∨ (2 : Int) = 4) ∧
      ("cat" : String) ≠ "") ∧
    GoMain.handleTextToImage (fun _ => [GoMain.StreamItem.err "boom"])
      ⟨"POST", some ⟨"x"⟩⟩ =
      ⟨GoMain.writeError ("generation error: " ++ "boom") 500, ["x"],
        ["Error generating image: " ++ "boom"]⟩ ∧
    GoV0.handleTextToImage (fun _ => Except.error "boom") ⟨"POST", some ⟨"x"⟩⟩ =
      ⟨GoV0.httpError "generation error" 500, ["x"], []⟩ :=
  ⟨⟨fun _ => rfl, fun _ => rfl, by decide, by decide, by decide, Or.inl rfl,
     by decide⟩,
   (c6_error_messages (fun _ => [GoMain.StreamItem.err "boom"])
      (fun _ => Except.error "boom") "x" "QUJD" "cat" 2 "boom"
      (fun _ => rfl) (fun _ => rfl) (by decide) (by decide) (by decide)
      (Or.inl rfl) (by decide)).1,
   (c6_error_messages (fun _ => [GoMain.StreamItem.err "boom"])
      (fun _ => Except.error "boom") "x" "QUJD" "cat" 2 "boom"
      (fun _ => rfl) (fun _ => rfl) (by decide) (by decide) (by decide)
      (Or.inl rfl) (by decide)).2.2.2.2.1⟩

/-- The upstream-call list of part_000's /sketch-to-image handler on a valid
request with description cat: the concrete input refuting claim C7 as
stated. -/
def c7CexCalls : List String :=
  (GoV0.handleSketchToImage (fun _ => Except.error "e")
    ⟨"POST", some ⟨"QUJD", "cat"⟩⟩).upstreamCalls

/-- C7 counterexample: in the part_000 variant the synthesized sketch
prompt carries the prefix Sketch to Image, so for the valid request with
description cat the upstream prompt is not the claimed string Interpret
this sketch as, refuting the exact-template claim on that variant. -/
theorem c7_cex_v0_sketch_prompt :
    c7CexCalls = ["Sketch to Image: interpret this sketch as 'cat'."] ∧
    c7CexCalls ≠ ["Interpret this sketch as 'cat'."] :=
  ⟨rfl, by decide⟩

/-- C7 (amended): prompt synthesis is a pure total function of the
validated input; for every valid request the /resize prompt is the
substituted resize template in both variants, the /sketch-to-image prompt
is the template Interpret this sketch as in main.go but carries the prefix
Sketch to Image in the part_000 variant, and the /magic-eraser prompt is
one fixed constant string per variant (the two variants use different
constants). -/
theorem c7_prompt_strings
    (upM : String → List GoMain.StreamItem)
    (upV : String → Except String GoV0.GenerateImagesResponse)
    (img desc : String) (scale : Int)
    (h1 : img ≠ "") (h3 : base64StdDecodeOk img = true)
    (h5 : scale = 2 ∨ scale = 4) (h6 : desc ≠ "") :
    (GoMain.handleResize upM ⟨"POST", some ⟨img, scale⟩⟩).upstreamCalls =
      ["Resize this image by x" ++ toString scale ++ " preserving details."] ∧
    (GoMain.handleSketchToImage upM ⟨"POST", some ⟨img, desc⟩⟩).upstreamCalls =
      ["Interpret this sketch as '" ++ desc ++ "'."] ∧
    (GoMain.handleMagicEraser upM ⟨"POST", some ⟨img⟩⟩).upstreamCalls =
      ["Remove the pink masked area and reconstruct the background."] ∧
    (GoV0.handleResize upV ⟨"POST", some ⟨img, scale⟩⟩).upstreamCalls =
      ["Resize this image by x" ++ toString scale ++ " preserving details."] ∧
    (GoV0.handleSketchToImage upV ⟨"POST", some ⟨img, desc⟩⟩).upstreamCalls =
      ["Sketch to Image: interpret this sketch as '" ++ desc ++ "'."] ∧
    (GoV0.handleMagicEraser upV ⟨"POST", some ⟨img⟩⟩).upstreamCalls =
      ["Magic eraser: remove the pink masked area and reconstruct background."] := by
  refine ⟨?_, ?_, ?_, ?_, ?_, ?_⟩
  · rw [mainResize_valid upM img scale h1 h3 h5]; exact mainMatch_calls _ _ _ _
  · rw [mainSketch_valid upM img desc h1 h3 h6]; exact mainMatch_calls _ _ _ _
  · rw [mainEraser_valid upM img h1 h3]; exact mainMatch_calls _ _ _ _
  · rw [v0Resize_valid upV img scale h1 h3 h5]; exact v0Match_calls _ _ _
  · rw [v0Sketch_valid upV img desc h1 h3 h6]; exact v0Match_calls _ _ _
  · rw [v0Eraser_valid upV img h1 h3]; exact v0Match_calls _ _ _

/-- C7 witness at concrete valid inputs: image QUJD, description cat,
scale 2, stubbed upstreams. -/
theorem c7_witness :
    (("QUJD" : String) ≠ "" ∧ base64StdDecodeOk "QUJD" = true ∧
      ((2 : Int) = 2 ∨ (2 : Int) = 4) ∧ ("cat" : String) ≠ "") ∧
    (GoMain.handleResize (fun _ => []) ⟨"POST", some ⟨"QUJD", 2⟩⟩).upstreamCalls =
      ["Resize this image by x" ++ toString (2 : Int) ++ " preserving details."] ∧
    (GoMain.handleSketchToImage (fun _ => [])
        ⟨"POST", some ⟨"QUJD", "cat"⟩⟩).upstreamCalls =
      ["Interpret this sketch as '" ++ "cat" ++ "'."] ∧
    (GoMain.handleMagicEraser (fun _ => []) ⟨"POST", some ⟨"QUJD"⟩⟩).upstreamCalls =
      ["Remove the pink masked area and reconstruct the background."] ∧
    (GoV0.handleResize (fun _ => Except.error "e")
        ⟨"POST", some ⟨"QUJD", 2⟩⟩).upstreamCalls =
      ["Resize this image by x" ++ toString (2 : Int) ++ " preserving details."] ∧
    (GoV0.handleSketchToImage (fun _ => Except.error "e")
        ⟨"POST", some ⟨"QUJD", "cat"⟩⟩).upstreamCalls =
      ["Sketch to Image: interpret this sketch as '" ++ "cat" ++ "'."] ∧
    (GoV0.handleMagicEraser (fun _ => Except.error "e")
        ⟨"POST", some ⟨"QUJD"⟩⟩).upstreamCalls =
      ["Magic eraser: remove the pink masked area and reconstruct background."] :=
  ⟨⟨by decide, by decide, Or.inl rfl, by decide⟩,
   c7_prompt_strings (fun _ => []) (fun _ => Except.error "e") "QUJD" "cat" 2
     (by decide) (by decide) (Or.inl rfl) (by decide)⟩

theorem writeImage_norm (dd : List Nat) (mt : String) :
    GoMain.writeImage dd (if mt = "" then "image/png" else mt) =
      { status := 200, contentType := if mt = "" then "image/png" else mt,
        body := RespBody.image dd } := by
  by_cases h : mt = "" <;> simp [GoMain.writeImage, h]

/-- The response of part_000's /text-to-image handler on a valid request
when the upstream's first generated image declares the MIME type
image/jpeg: the concrete input refuting claim C8 as stated. -/
def c8CexResponse : HttpResponse :=
  (GoV0.handleTextToImage
    (fun _ => Except.ok ⟨[⟨some ⟨[7], "image/jpeg"⟩⟩]⟩)
    ⟨"POST", some ⟨"x"⟩⟩).response

/-- C8 counterexample: the part_000 variant writes every successful
response with Content-Type image/png via writeImagePNG, so when the
upstream's first image payload declares the non-empty MIME type image/jpeg
the response Content-Type is image/png and not the declared type, refuting
the claim as stated. -/
theorem c8_cex_v0_ignores_mime :
    c8CexResponse =
      { status := 200, contentType := "image/png", body := RespBody.image [7] } ∧
    ("image/png" : String) ≠ "image/jpeg" :=
  ⟨rfl, by decide⟩

/-- C8 (amended): in main.go, for every successful request the response
Content-Type is the MIME type declared by the first inline image payload of
the upstream stream, with image/png substituted when the declared type is
empty; the part_000 variant instead responds with Content-Type image/png
for every successful request, whatever MIME type the upstream's first
generated image declares. -/
theorem c8_content_type
    (upM : String → List GoMain.StreamItem)
    (upV : String → Except String GoV0.GenerateImagesResponse)
    (p img desc : String) (scale : Int) (d : GoMain.InlineData)
    (respV : GoV0.GenerateImagesResponse) (g : GoV0.GeneratedImage)
    (i : GoV0.Image)
    (hM1 : ∀ q, streamErrFree (upM q) = true)
    (hM2 : ∀ q, firstInline (upM q) = some d)
    (hV0 : ∀ q, upV q = Except.ok respV)
    (hV1 : respV.generatedImages.head? = some g)
    (hV2 : g.image = some i)
    (hp : p ≠ "") (h1 : img ≠ "") (h3 : base64StdDecodeOk img = true)
    (h5 : scale = 2 ∨ scale = 4) (h6 : desc ≠ "") :
    (GoMain.handleTextToImage upM ⟨"POST", some ⟨p⟩⟩).response =
      { status := 200,
        contentType := if d.mimeType = "" then "image/png" else d.mimeType,
        body := RespBody.image d.data } ∧
    (GoMain.handleResize upM ⟨"POST", some ⟨img, scale⟩⟩).response =
      { status := 200,
        contentType := if d.mimeType = "" then "image/png" else d.mimeType,
        body := RespBody.image d.data } ∧
    (GoMain.handleSketchToImage upM ⟨"POST", some ⟨img, desc⟩⟩).response =
      { status := 200,
        contentType := if d.mimeType = "" then "image/png" else d.mimeType,
        body := RespBody.image d.data } ∧
    (GoMain.handleMagicEraser upM ⟨"POST", some ⟨img⟩⟩).response =
      { status := 200,
        contentType := if d.mimeType = "" then "image/png" else d.mimeType,
        body := RespBody.image d.data } ∧
    (GoV0.handleTextToImage upV ⟨"POST", some ⟨p⟩⟩).response =
      { status := 200, contentType := "image/png",
        body := RespBody.image i.imageBytes } ∧
    (GoV0.handleResize upV ⟨"POST", some ⟨img, scale⟩⟩).response =
      { status := 200, contentType := "image/png",
        body := RespBody.image i.imageBytes } ∧
    (GoV0.handleSketchToImage upV ⟨"POST", some ⟨img, desc⟩⟩).response =
      { status := 200, contentType := "image/png",
        body := RespBody.image i.imageBytes } ∧
    (GoV0.handleMagicEraser upV ⟨"POST", some ⟨img⟩⟩).response =
      { status := 200, contentType := "image/png",
        body := RespBody.image i.imageBytes } := by
  have hgen : ∀ q, GoMain.generateSingleImage (upM q) =
      Except.ok (d.data, if d.mimeType = "" then "image/png" else d.mimeType) := by
    intro q
    rw [generateSingleImage_spec (upM q) (hM1 q), hM2 q]
  have hvgen : ∀ q, GoV0.generateSingleImage (upV q) =
      Except.ok i.imageBytes := by
    intro q
    rw [hV0 q]
    simp [GoV0.generateSingleImage, hV1, hV2]
  refine ⟨?_, ?_, ?_, ?_, ?_, ?_, ?_, ?_⟩
  · rw [mainTextToImage_valid upM p hp]; simp [hgen p, writeImage_norm]
  · rw [mainResize_valid upM img scale h1 h3 h5]
    simp [hgen (resizePrompt scale), writeImage_norm]
  · rw [mainSketch_valid upM img desc h1 h3 h6]
    simp [hgen (GoMain.sketchPrompt desc), writeImage_norm]
  · rw [mainEraser_valid upM img h1 h3]
    simp [hgen GoMain.eraserPrompt, writeImage_norm]
  · rw [v0TextToImage_valid upV p hp]; simp [hvgen p, GoV0.writeImagePNG]
  · rw [v0Resize_valid upV img scale h1 h3 h5]
    simp [hvgen (resizePrompt scale), GoV0.writeImagePNG]
  · rw [v0Sketch_valid upV img desc h1 h3 h6]
    simp [hvgen (GoV0.sketchPrompt desc), GoV0.writeImagePNG]
  · rw [v0Eraser_valid upV img h1 h3]
    simp [hvgen GoV0.eraserPrompt, GoV0.writeImagePNG]

/-- C8 witness at concrete inputs: a one-result stream whose inline payload
declares MIME type image/jpeg for main.go, and a GenerateImages response
whose first image declares image/jpeg for part_000 (which still answers
image/png). -/
theorem c8_witness :
    ((∀ q : String,
        streamErrFree ((fun _ =>
          [GoMain.StreamItem.ok ⟨[⟨some ⟨[⟨some ⟨"image/jpeg", [7]⟩⟩]⟩⟩]⟩]) q) = true) ∧
      (∀ q : String,
        firstInline ((fun _ =>
          [GoMain.StreamItem.ok ⟨[⟨some ⟨[⟨some ⟨"image/jpeg", [7]⟩⟩]⟩⟩]⟩]) q) =
          some ⟨"image/jpeg", [7]⟩) ∧
      ("x" : String) ≠ "" ∧ ("QUJD" : String) ≠ "" ∧
      base64StdDecodeOk "QUJD" = true ∧ ((2 : Int) = 2 ∨ (2 : Int) = 4) ∧
      ("cat" : String) ≠ "") ∧
    (GoMain.handleTextToImage
        (fun _ => [GoMain.StreamItem.ok ⟨[⟨some ⟨[⟨some ⟨"image/jpeg", [7]⟩⟩]⟩⟩]⟩])
        ⟨"POST", some ⟨"x"⟩⟩).response =
      { status := 200,
        contentType :=
          if ("image/jpeg" : String) = "" then "image/png" else "image/jpeg",
        body := RespBody.image [7] } ∧
    (GoV0.handleTextToImage
        (fun _ => Except.ok ⟨[⟨some ⟨[7], "image/jpeg"⟩⟩]⟩)
        ⟨"POST", some ⟨"x"⟩⟩).response =
      { status := 200, contentType := "image/png",
        body := RespBody.image ([7] : List Nat) } :=
  ⟨⟨fun _ => rfl, fun _ => rfl, by decide, by decide, by decide, Or.inl rfl,
     by decide⟩,
   (c8_content_type
      (fun _ => [GoMain.StreamItem.ok ⟨[⟨some ⟨[⟨some ⟨"image/jpeg", [7]⟩⟩]⟩⟩]⟩])
      (fun _ => Except.ok ⟨[⟨some ⟨[7], "image/jpeg"⟩⟩]⟩)
      "x" "QUJD" "cat" 2 ⟨"image/jpeg", [7]⟩ ⟨[⟨some ⟨[7], "image/jpeg"⟩⟩]⟩
      ⟨some ⟨[7], "image/jpeg"⟩⟩ ⟨[7], "image/jpeg"⟩
      (fun _ => rfl) (fun _ => rfl) (fun _ => rfl) rfl rfl
      (by decide) (by decide) (by decide) (Or.inl rfl) (by decide)).1,
   (c8_content_type
      (fun _ => [GoMain.StreamItem.ok ⟨[⟨some ⟨[⟨some ⟨"image/jpeg", [7]⟩⟩]⟩⟩]⟩])
      (fun _ => Except.ok ⟨[⟨some ⟨[7], "image/jpeg"⟩⟩]⟩)
      "x" "QUJD" "cat" 2 ⟨"image/jpeg", [7]⟩ ⟨[⟨some ⟨[7], "image/jpeg"⟩⟩]⟩
      ⟨some ⟨[7], "image/jpeg"⟩⟩ ⟨[7], "image/jpeg"⟩
      (fun _ => rfl) (fun _ => rfl) (fun _ => rfl) rfl rfl
      (by decide) (by decide) (by decide) (Or.inl rfl) (by decide)).2.2.2.2.1⟩

/-- C9: in handleResize of both variants the validation checks run in a
fixed order — empty image, then scale membership, then base64 — so an
empty image field yields 400 missing image whatever the scale, and a
non-empty image with scale outside two and four yields 400 scale must be
2 or 4 whatever the image string, in particular when its base64 is
invalid. -/
theorem c9_resize_validation_order
    (upM : String → List GoMain.StreamItem)
    (upV : String → Except String GoV0.GenerateImagesResponse)
    (img : String) (scale : Int)
    (h1 : img ≠ "") (h2 : scale ≠ 2) (h4 : scale ≠ 4) :
    (GoMain.handleResize upM ⟨"POST", some ⟨"", scale⟩⟩).response =
      GoMain.writeError "missing image" 400 ∧
    (GoV0.handleResize upV ⟨"POST", some ⟨"", scale⟩⟩).response =
      GoV0.httpError "missing image" 400 ∧
    (GoMain.handleResize upM ⟨"POST", some ⟨img, scale⟩⟩).response =
      GoMain.writeError "scale must be 2 or 4" 400 ∧
    (GoV0.handleResize upV ⟨"POST", some ⟨img, scale⟩⟩).response =
      GoV0.httpError "scale must be 2 or 4" 400 := by
  refine ⟨?_, ?_, ?_, ?_⟩
  · simp [GoMain.handleResize]
  · simp [GoV0.handleResize]
  · simp [GoMain.handleResize, h1, h2, h4]
  · simp [GoV0.handleResize, h1, h2, h4]

/-- C9 witness at concrete inputs: scale 3 with an empty image, and the
invalid-base64 image string made of exclamation marks with scale 3. -/
theorem c9_witness :
    (("!!!" : String) ≠ "" ∧ (3 : Int) ≠ 2 ∧ (3 : Int) ≠ 4 ∧
      base64StdDecodeOk "!!!" = false) ∧
    ((GoMain.handleResize (fun _ => []) ⟨"POST", some ⟨"", 3⟩⟩).response =
        GoMain.writeError "missing image" 400 ∧
      (GoV0.handleResize (fun _ => Except.error "e")
          ⟨"POST", some ⟨"", 3⟩⟩).response =
        GoV0.httpError "missing image" 400 ∧
      (GoMain.handleResize (fun _ => []) ⟨"POST", some ⟨"!!!", 3⟩⟩).response =
        GoMain.writeError "scale must be 2 or 4" 400 ∧
      (GoV0.handleResize (fun _ => Except.error "e")
          ⟨"POST", some ⟨"!!!", 3⟩⟩).response =
        GoV0.httpError "scale must be 2 or 4" 400) :=
  ⟨⟨by decide, by decide, by decide, by decide⟩,
   c9_resize_validation_order (fun _ => []) (fun _ => Except.error "e") "!!!" 3
     (by decide) (by decide) (by decide)⟩

/-- C10: base64 image fields are validated with Go's padded StdEncoding:
every string that is valid unpadded base64url but contains a url-safe
character - or _, or lacks the required padding (its length is not a
multiple of four), fails the standard decode, and on a POST with the other
fields valid the /resize, /sketch-to-image and /magic-eraser handlers of
both variants respond 400 invalid base64 and make no upstream call. -/
theorem c10_std_encoding_rejects_base64url
    (upM : String → List GoMain.StreamItem)
    (upV : String → Except String GoV0.GenerateImagesResponse)
    (s desc : String) (scale : Int)
    (hurl : rawUrlB64Ok s = true)
    (hbad : ('-' ∈ s.data) ∨ ('_' ∈ s.data) ∨ s.data.length % 4 ≠ 0)
    (h5 : scale = 2 ∨ scale = 4) (h6 : desc ≠ "") :
    base64StdDecodeOk s = false ∧
    GoMain.handleResize upM ⟨"POST", some ⟨s, scale⟩⟩ =
      ⟨GoMain.writeError "invalid base64" 400, [], []⟩ ∧
    GoMain.handleSketchToImage upM ⟨"POST", some ⟨s, desc⟩⟩ =
      ⟨GoMain.writeError "invalid base64" 400, [], []⟩ ∧
    GoMain.handleMagicEraser upM ⟨"POST", some ⟨s⟩⟩ =
      ⟨GoMain.writeError "invalid base64" 400, [], []⟩ ∧
    GoV0.handleResize upV ⟨"POST", some ⟨s, scale⟩⟩ =
      ⟨GoV0.httpError "invalid base64" 400, [], []⟩ ∧
    GoV0.handleSketchToImage upV ⟨"POST", some ⟨s, desc⟩⟩ =
      ⟨GoV0.httpError "invalid base64" 400, [], []⟩ ∧
    GoV0.handleMagicEraser upV ⟨"POST", some ⟨s⟩⟩ =
      ⟨GoV0.httpError "invalid base64" 400, [], []⟩ := by
  have hdec : base64StdDecodeOk s = false := base64Std_fails_on_url s hurl hbad
  have hne : s ≠ "" := by
    rcases hbad with h | h | h
    · exact string_ne_empty_of_mem s _ h
    · exact string_ne_empty_of_mem s _ h
    · exact string_ne_empty_of_len s h
  have hsc : ¬(scale ≠ 2 ∧ scale ≠ 4) := by tauto
  refine ⟨hdec, ?_, ?_, ?_, ?_, ?_, ?_⟩
  · simp [GoMain.handleResize, hne, hsc, hdec]
  · simp [GoMain.handleSketchToImage, hne, h6, hdec]
  · simp [GoMain.handleMagicEraser, hne, hdec]
  · simp [GoV0.handleResize, hne, hsc, hdec]
  · simp [GoV0.handleSketchToImage, hne, h6, hdec]
  · simp [GoV0.handleMagicEraser, hne, hdec]

/-- C10 witness at the concrete string QQ: valid unpadded base64url, but
rejected by the standard decoder for lacking padding, so all six handlers
answer 400 invalid base64. -/
theorem c10_witness :
    (rawUrlB64Ok "QQ" = true ∧
      (('-' ∈ ("QQ" : String).data) ∨ ('_' ∈ ("QQ" : String).data) ∨
        ("QQ" : String).data.length % 4 ≠ 0) ∧
      ((2 : Int) = 2 ∨ (2 : Int) = 4) ∧ ("x" : String) ≠ "") ∧
    (base64StdDecodeOk "QQ" = false ∧
      GoMain.handleResize (fun _ => []) ⟨"POST", some ⟨"QQ", 2⟩⟩ =
        ⟨GoMain.writeError "invalid base64" 400, [], []⟩ ∧
      GoMain.handleSketchToImage (fun _ => []) ⟨"POST", some ⟨"QQ", "x"⟩⟩ =
        ⟨GoMain.writeError "invalid base64" 400, [], []⟩ ∧
      GoMain.handleMagicEraser (fun _ => []) ⟨"POST", some ⟨"QQ"⟩⟩ =
        ⟨GoMain.writeError "invalid base64" 400, [], []⟩ ∧
      GoV0.handleResize (fun _ => Except.error "e") ⟨"POST", some ⟨"QQ", 2⟩⟩ =
        ⟨GoV0.httpError "invalid base64" 400, [], []⟩ ∧
      GoV0.handleSketchToImage (fun _ => Except.error "e")
          ⟨"POST", some ⟨"QQ", "x"⟩⟩ =
        ⟨GoV0.httpError "invalid base64" 400, [], []⟩ ∧
      GoV0.handleMagicEraser (fun _ => Except.error "e") ⟨"POST", some ⟨"QQ"⟩⟩ =
        ⟨GoV0.httpError "invalid base64" 400, [], []⟩) :=
  ⟨⟨by decide, Or.inr (Or.inr (by decide)), Or.inl rfl, by decide⟩,
   c10_std_encoding_rejects_base64url (fun _ => []) (fun _ => Except.error "e")
     "QQ" "x" 2 (by decide) (Or.inr (Or.inr (by decide))) (Or.inl rfl)
     (by decide)⟩
